import Mathlib

/-!
Verification of the tinfoil Electron/React frontend against its
natural-language specification.  Shallow embedding: each JavaScript
function relevant to the claims is translated into a Lean definition,
with fetch outcomes, JSON values and React state made explicit.
-/

namespace Tinfoil

/-- A JSON-like value appearing in request bodies (only strings and
booleans occur in the bodies the frontend builds). -/
inductive JVal where
  | s (v : String)
  | b (v : Bool)
deriving DecidableEq, Repr

/-- A log entry as produced by addLog(message, type) in the React code. -/
structure LogEntry where
  message : String
  type : String
deriving DecidableEq, Repr

/-! ## preload.js -/

/-- MAX_LISTENERS from preload.js line 3. -/
def MAX_LISTENERS : Nat := 10

/-- A JavaScript value passed to the exposed preload API: either a string
or anything that is not a string (collapsed to one constructor, since the
code only branches on typeof value being string). -/
inductive JSValue where
  | str (s : String)
  | other
deriving DecidableEq, Repr

/-- pat is a prefix of s (on character lists). -/
def listStartsWith : List Char → List Char → Bool
  | _, [] => true
  | [], _ :: _ => false
  | a :: as, b :: bs => a == b && listStartsWith as bs

/-- pat occurs as a contiguous sublist of s. -/
def listHasSub : List Char → List Char → Bool
  | [], pat => listStartsWith [] pat
  | c :: rest, pat => listStartsWith (c :: rest) pat || listHasSub rest pat

/-- JavaScript String.prototype.includes: pat occurs as a contiguous
substring of s. -/
def stringIncludes (s pat : String) : Bool :=
  listHasSub s.toList pat.toList

/-- validateString from preload.js: typeof value is string, length > 0 and
length at most maxLength (called with the default maxLength = 4096). -/
def validateString (value : JSValue) (maxLength : Nat) : Bool :=
  match value with
  | .str s => decide (0 < s.length) && decide (s.length ≤ maxLength)
  | .other => false

/-- validatePath from preload.js: validateString(path) and not
path.includes(".."). For a non-string the first conjunct is false and
the JavaScript short-circuits, so includes is never evaluated. -/
def validatePath (path : JSValue) : Bool :=
  match path with
  | .str s => validateString (.str s) 4096 && !(stringIncludes s (".."))
  | .other => false

/-- Result of a call to the exposed openDirectory: either the promise is
rejected before any IPC, or ipcRenderer.invoke is reached with the path
(only through invoked can shell.openPath ever run). -/
inductive OpenDirCall where
  | rejected
  | invoked (path : JSValue)
deriving DecidableEq, Repr

/-- openDirectory from preload.js: reject unless validatePath accepts,
otherwise invoke the open-directory IPC channel with the path. -/
def openDirectory (path : JSValue) : OpenDirCall :=
  if validatePath path then .invoked path else .rejected

/-- The callback argument handed to the preload listener registrars:
either a function or some non-function value. -/
inductive JSCallback where
  | func
  | notFunc
deriving DecidableEq, Repr

/-- The three listener counters of preload.js.  Registration only ever
increments them, so each counter equals the number of callbacks ever
registered on its channel. -/
structure ListenerCounts where
  log : Nat
  error : Nat
  exit : Nat
deriving DecidableEq, Repr

/-- onPythonLog from preload.js: non-functions register nothing; at
MAX_LISTENERS or more the call is ignored; otherwise the counter grows by
one as ipcRenderer.on registers the callback. -/
def onPythonLog (st : ListenerCounts) (cb : JSCallback) : ListenerCounts :=
  match cb with
  | .notFunc => st
  | .func => if MAX_LISTENERS ≤ st.log then st else { st with log := st.log + 1 }

/-- onPythonError from preload.js, same shape as onPythonLog. -/
def onPythonError (st : ListenerCounts) (cb : JSCallback) : ListenerCounts :=
  match cb with
  | .notFunc => st
  | .func => if MAX_LISTENERS ≤ st.error then st else { st with error := st.error + 1 }

/-- onPythonExit from preload.js, same shape as onPythonLog. -/
def onPythonExit (st : ListenerCounts) (cb : JSCallback) : ListenerCounts :=
  match cb with
  | .notFunc => st
  | .func => if MAX_LISTENERS ≤ st.exit then st else { st with exit := st.exit + 1 }

/-- One call to a preload listener registrar. -/
inductive PreloadCall where
  | pythonLog (cb : JSCallback)
  | pythonError (cb : JSCallback)
  | pythonExit (cb : JSCallback)
deriving DecidableEq, Repr

/-- Run a sequence of registrar calls from a starting counter state. -/
def runPreloadCalls (st : ListenerCounts) : List PreloadCall → ListenerCounts
  | [] => st
  | c :: rest =>
    runPreloadCalls
      (match c with
       | .pythonLog cb => onPythonLog st cb
       | .pythonError cb => onPythonError st cb
       | .pythonExit cb => onPythonExit st cb) rest

/-! ## ProcessContext.js and App.js -/

/-- The outcome of an awaited fetch-plus-json sequence inside a try block:
either some step threw (with the error message) or a parsed body came
back. -/
inductive FetchOutcome (α : Type) where
  | thrown (msg : String)
  | ok (data : α)
deriving DecidableEq, Repr

/-- Parsed body of the POST process_directory response.  job_id is none
when the key is absent from the JSON object. -/
structure RespData where
  job_id : Option String
deriving DecidableEq, Repr

/-- JavaScript truthiness of a possibly-absent string field: absent (or
null-like) and the empty string are falsy. -/
def jsTruthyStr : Option String → Bool
  | some s => !(s == "")
  | none => false

/-- A job entry in the React jobs list.  The process_directory response
only carries job_id; status, progress, result and error appear once poll
data is spread into the entry (none models an absent key). -/
structure Job where
  job_id : String
  status : Option String
  progress : Option ℚ
  result : Option String
  error : Option String
deriving DecidableEq, Repr

/-- The jobs-list entry created by setJobs(prev concatenated with data)
from the parsed process_directory response. -/
def respToJob (d : RespData) : Job :=
  { job_id := (d.job_id).getD ("")
    status := none
    progress := none
    result := none
    error := none }

/-- The request body built by startProcessing in ProcessContext.js lines
60 to 68, in field order. -/
def startProcessingBody (inputPath outputPath : String) (forceUpdate : Bool)
    (outputPattern lyricsSource : String) (tagFallback : Bool) (apiKey : String) :
    List (String × JVal) :=
  [("input_path", .s inputPath),
   ("output_path", .s outputPath),
   ("force_update", .b forceUpdate),
   ("output_pattern", .s outputPattern),
   ("lyrics_source", .s lyricsSource),
   ("tag_fallback", .b tagFallback),
   ("api_key", .s apiKey)]

/-- The request body built by handleProcess in App.js lines 98 to 103, in
field order: only four fields, with force_update and lyrics_source
hard-coded. -/
def handleProcessBody (inputPath outputPath : String) : List (String × JVal) :=
  [("input_path", .s inputPath),
   ("output_path", .s outputPath),
   ("force_update", .b false),
   ("lyrics_source", .s ("genius"))]

/-- The configuration state held by ProcessProvider that startProcessing
reads. -/
structure ProcConfig where
  inputPath : String
  outputPath : String
  forceUpdate : Bool
  outputPattern : String
  lyricsSource : String
  tagFallback : Bool
  apiKey : String
deriving DecidableEq, Repr

/-- The mutable React state that startProcessing touches: the processing
flag, the log list, the jobs list, and (to record that pollJobStatus was
started) the list of job ids being polled. -/
structure CtxState where
  processing : Bool
  logs : List LogEntry
  jobs : List Job
  pollingJobs : List String
deriving DecidableEq, Repr

/-- The log entry of the early-return guard of startProcessing. -/
def requiredPathsLog : LogEntry := ⟨"Input and output paths are required", "error"⟩

/-- startProcessing from ProcessContext.js lines 47 to 89.  Returns the
new state and the request body issued (none when no HTTP request was
made).  fetchResult is the outcome of the fetch-plus-json pair when a
request is issued. -/
def startProcessing (c : ProcConfig) (st : CtxState)
    (fetchResult : FetchOutcome RespData) :
    CtxState × Option (List (String × JVal)) :=
  if c.inputPath = "" ∨ c.outputPath = "" then
    ({ st with logs := st.logs ++ [requiredPathsLog] }, none)
  else
    let body := startProcessingBody c.inputPath c.outputPath c.forceUpdate
      c.outputPattern c.lyricsSource c.tagFallback c.apiKey
    let st1 : CtxState :=
      { st with processing := true
                logs := st.logs ++
                  [⟨"Processing started: " ++ c.inputPath ++ " -> " ++ c.outputPath, "info"⟩] }
    match fetchResult with
    | .thrown msg =>
        ({ st1 with processing := false
                    logs := st1.logs ++ [⟨"Error: " ++ msg, "error"⟩] }, some body)
    | .ok d =>
        let st2 : CtxState :=
          if jsTruthyStr d.job_id then
            { st1 with jobs := st1.jobs ++ [respToJob d]
                       logs := st1.logs ++ [⟨"Job created: " ++ (d.job_id).getD (""), "info"⟩]
                       pollingJobs := st1.pollingJobs ++ [(d.job_id).getD ("")] }
          else
            { st1 with logs := st1.logs ++ [⟨"Failed to create job", "error"⟩] }
        ({ st2 with processing := false }, some body)

/-- The mutable React state of App.js that handleProcess touches. -/
structure AppState where
  isProcessing : Bool
  logs : List LogEntry
deriving DecidableEq, Repr

/-- The log entry of the early-return guard of handleProcess. -/
def selectDirsLog : LogEntry := ⟨"Please select input and output directories first", "error"⟩

/-- handleProcess from App.js lines 83 to 119: same guard shape as
startProcessing, but no jobs list and no polling. -/
def handleProcess (inputPath outputPath : String) (st : AppState)
    (fetchResult : FetchOutcome RespData) :
    AppState × Option (List (String × JVal)) :=
  if inputPath = "" ∨ outputPath = "" then
    ({ st with logs := st.logs ++ [selectDirsLog] }, none)
  else
    let st1 : AppState :=
      { st with isProcessing := true
                logs := st.logs ++ [⟨"Starting processing...", "info"⟩] }
    match fetchResult with
    | .thrown msg =>
        ({ st1 with isProcessing := false
                    logs := st1.logs ++ [⟨"Error processing files: " ++ msg, "error"⟩] },
         some (handleProcessBody inputPath outputPath))
    | .ok d =>
        let st2 : AppState :=
          if jsTruthyStr d.job_id then
            { st1 with logs := st1.logs ++
                [⟨"Processing job started: " ++ (d.job_id).getD (""), "success"⟩] }
          else
            { st1 with logs := st1.logs ++ [⟨"Failed to start processing job", "error"⟩] }
        ({ st2 with isProcessing := false }, some (handleProcessBody inputPath outputPath))

/-! ## pollJobStatus (ProcessContext.js lines 92 to 113) -/

/-- The polling interval passed to setInterval. -/
def pollIntervalMs : Nat := 1000

/-- One tick of the polling loop: the fetch-plus-json pair threw, or a
status body came back. -/
inductive PollOutcome where
  | thrown (msg : String)
  | ok (status : String)
deriving DecidableEq, Repr

/-- Whether a tick clears the interval: a throw always does (the catch
block), and a response does exactly when its status is completed or
failed. -/
def pollStops : PollOutcome → Bool
  | .thrown _ => true
  | .ok s => s == "completed" || s == "failed"

/-- Number of status requests the loop issues when the successive tick
outcomes are the given list: each tick issues one request, and the loop
goes on past a tick exactly when pollStops is false there. -/
def pollRequestCount : List PollOutcome → Nat
  | [] => 0
  | o :: rest => 1 + (if pollStops o then 0 else pollRequestCount rest)

/-- Parsed body of a GET status response: job_id, status and progress are
always present, result and error are optional keys. -/
structure StatusData where
  job_id : String
  status : String
  progress : ℚ
  result : Option String
  error : Option String
deriving DecidableEq, Repr

/-- The object spread of poll data over a job entry: every key present in
the status body overrides the entry's value, absent keys keep it. -/
def spreadMerge (j : Job) (d : StatusData) : Job :=
  { job_id := d.job_id
    status := some d.status
    progress := some d.progress
    result := match d.result with | some r => some r | none => j.result
    error := match d.error with | some e => some e | none => j.error }

/-- The setJobs updater of pollJobStatus lines 98 to 102: map over the
previous list, spreading the poll data into entries whose job_id equals
the polled id and leaving the rest alone. -/
def mergeJobs (jobs : List Job) (jobId : String) (d : StatusData) : List Job :=
  jobs.map fun j => if j.job_id = jobId then spreadMerge j d else j

/-! ## validateSetup (ProcessContext.js lines 151 to 171) -/

/-- Parsed body of the GET validate_setup response, per the interface
shape: a valid flag and a map from dependency name to boolean (kept as an
ordered association list, as Object.entries iterates it). -/
structure ValidationResp where
  valid : Bool
  validations : List (String × Bool)
deriving DecidableEq, Repr

/-- validateSetup from ProcessContext.js: on a throw anywhere in the try
block the catch logs one error entry and returns valid false; on a valid
response it logs success and returns the data; otherwise it logs one error
entry per false entry of validations (in order) and returns the data. -/
def validateSetup (logs : List LogEntry) (fetchResult : FetchOutcome ValidationResp) :
    List LogEntry × ValidationResp :=
  match fetchResult with
  | .thrown msg =>
      (logs ++ [⟨"Error validating setup: " ++ msg, "error"⟩], ⟨false, []⟩)
  | .ok d =>
      if d.valid then
        (logs ++ [⟨"Setup validation successful", "success"⟩], d)
      else
        (logs ++ (d.validations.filterMap fun kv =>
            if kv.2 then none else some ⟨"Validation failed for " ++ kv.1, "error"⟩), d)

/-! ## StatusBadge (unnamed part_006) -/

/-- A Tailwind colour pair from STATUS_COLORS. -/
structure ColorScheme where
  bg : String
  text : String
deriving DecidableEq, Repr

/-- The pending colour scheme, STATUS_COLORS.pending. -/
def pendingColors : ColorScheme := ⟨"bg-yellow-100", "text-yellow-800"⟩

/-- The property names a plain JavaScript object literal inherits from
Object.prototype.  Bracket access with one of these names yields a truthy
value (a function, or for the proto accessor the prototype object
itself), not undefined. -/
def protoKeys : List String :=
  ["constructor", "hasOwnProperty", "isPrototypeOf", "propertyIsEnumerable",
   "toLocaleString", "toString", "valueOf", "__proto__",
   "__defineGetter__", "__defineSetter__", "__lookupGetter__", "__lookupSetter__"]

/-- Result of the JavaScript bracket lookup on the STATUS_COLORS object
literal: one of its four own entries, a truthy value inherited from
Object.prototype, or undefined. -/
inductive LookupResult where
  | scheme (c : ColorScheme)
  | inherited
  | absent
deriving DecidableEq, Repr

/-- The bracket lookup on the STATUS_COLORS object of part_006: the four
own keys return their colour pair; a name of an Object.prototype property
returns that inherited (truthy) value; every other name is undefined. -/
def STATUS_COLORS (status : String) : LookupResult :=
  if status = "pending" then .scheme pendingColors
  else if status = "processing" then .scheme ⟨"bg-blue-100", "text-blue-800"⟩
  else if status = "completed" then .scheme ⟨"bg-green-100", "text-green-800"⟩
  else if status = "failed" then .scheme ⟨"bg-red-100", "text-red-800"⟩
  else if status ∈ protoKeys then .inherited
  else .absent

/-- What StatusBadge renders: the two colour class strings interpolated
into the className template, and the badge text. -/
structure BadgeView where
  colors : ColorScheme
  label : String
deriving DecidableEq, Repr

/-- StatusBadge from part_006: colors is STATUS_COLORS at status with an
or-fallback to STATUS_COLORS.pending, and the rendered text is the status
itself.  An own entry and an inherited Object.prototype value are both
truthy, so the fallback fires only for an absent key; on an inherited
value the bg and text accesses yield undefined, which the className
template literal renders as the text undefined. -/
def StatusBadge (status : String) : BadgeView :=
  { colors :=
      match STATUS_COLORS status with
      | .scheme c => c
      | .inherited => ⟨"undefined", "undefined"⟩
      | .absent => pendingColors
    label := status }

/-! ## ProgressBar.js and the JobList progress cell (part_003) -/

/-- JavaScript Math.round: round half toward positive infinity. -/
def jsRound (q : ℚ) : ℤ := ⌊q + 1 / 2⌋

/-- The colour of the filled part of a progress bar, shared by both
renderings. -/
def statusBarColor (status : String) : String :=
  if status = "completed" then "bg-green-600"
  else if status = "failed" then "bg-red-600"
  else "bg-blue-600"

/-- What a progress rendering shows: the CSS width of the filled bar (in
percent) and the integer percentage label. -/
structure ProgressView where
  widthPct : ℚ
  labelPct : ℤ
  barColor : String
deriving DecidableEq, Repr

/-- ProgressBar from ProgressBar.js lines 3 to 25: percentage is
Math.round(progress * 100) and both the bar width and the label use that
rounded percentage. -/
def ProgressBar (progress : ℚ) (status : String) : ProgressView :=
  { widthPct := ((jsRound (progress * 100) : ℤ) : ℚ)
    labelPct := jsRound (progress * 100)
    barColor := statusBarColor status }

/-- The progress cell of a JobList row, part_003 lines 63 to 79: the bar
width is job.progress * 100 percent (unrounded) while the label is
Math.round(job.progress * 100). -/
def jobListProgressCell (progress : ℚ) (status : String) : ProgressView :=
  { widthPct := progress * 100
    labelPct := jsRound (progress * 100)
    barColor := statusBarColor status }

/-! ## Theorems for the claims -/

/-- Claim C1 counterexample: the request handleProcess issues to POST
process_directory carries only the four fields input_path, output_path,
force_update and lyrics_source, so it does not carry all seven fields
(api_key, output_pattern and tag_fallback are absent). -/
theorem claim_C1_counterexample :
    (handleProcess ("a") ("b") ⟨false, []⟩ (.ok ⟨some ("j")⟩)).2 =
      some (handleProcessBody ("a") ("b")) ∧
    (handleProcessBody ("a") ("b")).map Prod.fst =
      ["input_path", "output_path", "force_update", "lyrics_source"] ∧
    ¬ ("api_key" ∈ (handleProcessBody ("a") ("b")).map Prod.fst) := by
  refine ⟨by decide, by decide, by decide⟩

/-- Claim C1 (amended): every request body startProcessing issues to POST
process_directory carries exactly the seven fields input_path,
output_path, force_update, output_pattern, lyrics_source, tag_fallback,
api_key in that order and no others, while every request body
handleProcess issues carries exactly the four fields input_path,
output_path, force_update, lyrics_source and no others. -/
theorem claim_C1_request_fields :
    (∀ (c : ProcConfig) (st : CtxState) (fr : FetchOutcome RespData)
       (req : List (String × JVal)),
       (startProcessing c st fr).2 = some req →
       req.map Prod.fst =
         ["input_path", "output_path", "force_update", "output_pattern",
          "lyrics_source", "tag_fallback", "api_key"]) ∧
    (∀ (i o : String) (st : AppState) (fr : FetchOutcome RespData)
       (req : List (String × JVal)),
       (handleProcess i o st fr).2 = some req →
       req.map Prod.fst =
         ["input_path", "output_path", "force_update", "lyrics_source"]) := by
  constructor
  · intro c st fr req h
    by_cases hc : c.inputPath = "" ∨ c.outputPath = ""
    · simp [startProcessing, hc] at h
    · cases fr with
      | thrown msg =>
          simp [startProcessing, hc] at h
          subst h
          rfl
      | ok d =>
          simp [startProcessing, hc] at h
          subst h
          rfl
  · intro i o st fr req h
    by_cases hc : i = "" ∨ o = ""
    · simp [handleProcess, hc] at h
    · cases fr with
      | thrown msg =>
          simp [handleProcess, hc] at h
          subst h
          rfl
      | ok d =>
          simp [handleProcess, hc] at h
          subst h
          rfl

/-- Claim C1 witness: a concrete startProcessing run issues a request
whose field names are exactly the seven of the specification. -/
theorem claim_C1_witness :
    (startProcessingBody ("in") ("out") false ("pat") ("genius") true ("key")).map Prod.fst =
      ["input_path", "output_path", "force_update", "output_pattern",
       "lyrics_source", "tag_fallback", "api_key"] :=
  claim_C1_request_fields.1 ⟨"in", "out", false, "pat", "genius", true, "key"⟩
    ⟨false, [], [], []⟩ (.ok ⟨some ("j1")⟩) _ (by decide)

/-- Claim C2: any argument to the exposed openDirectory that is a string
containing the substring two dots, or is not a string, or is a string
longer than 4096 characters, is rejected in the preload script: the call
never reaches ipcRenderer.invoke, hence never reaches shell.openPath. -/
theorem claim_C2_openDirectory_rejects :
    ∀ p : JSValue,
      ((∃ s, p = .str s ∧ stringIncludes s ("..") = true) ∨
       p = .other ∨
       (∃ s, p = .str s ∧ 4096 < s.length)) →
      openDirectory p = .rejected := by
  intro p h
  rcases h with ⟨s, rfl, hs⟩ | rfl | ⟨s, rfl, hs⟩
  · have hv : validatePath (.str s) = false := by
      simp [validatePath, hs]
    simp [openDirectory, hv]
  · rfl
  · have hlen : ¬ (s.length ≤ 4096) := by omega
    have hv : validatePath (.str s) = false := by
      simp [validatePath, validateString, hlen]
    simp [openDirectory, hv]

/-- Claim C2 witness: the concrete traversal path two-dots-slash-etc and a
non-string argument are both rejected. -/
theorem claim_C2_witness :
    openDirectory (.str ("../etc")) = .rejected ∧
    openDirectory .other = .rejected :=
  ⟨claim_C2_openDirectory_rejects (.str ("../etc"))
     (Or.inl ⟨"../etc", rfl, by decide⟩),
   claim_C2_openDirectory_rejects .other (Or.inr (Or.inl rfl))⟩

/-- Claim C3: the polling loop runs on a 1000 ms interval and a tick
clears the interval exactly when the fetch threw or the fetched status is
completed or failed; pending and processing never stop it, and a run of
ticks none of which stops the loop issues one status request per tick. -/
theorem claim_C3_poll_stop_condition :
    pollIntervalMs = 1000 ∧
    (∀ o : PollOutcome, pollStops o = true ↔
       ((∃ m, o = .thrown m) ∨ o = .ok ("completed") ∨ o = .ok ("failed"))) ∧
    pollStops (.ok ("pending")) = false ∧
    pollStops (.ok ("processing")) = false ∧
    (∀ outcomes : List PollOutcome,
       (∀ o ∈ outcomes, pollStops o = false) →
       pollRequestCount outcomes = outcomes.length) := by
  refine ⟨rfl, ?_, by decide, by decide, ?_⟩
  · intro o
    cases o with
    | thrown m => simp [pollStops]
    | ok s => simp [pollStops]
  · intro outcomes
    induction outcomes with
    | nil => intro _; rfl
    | cons o rest ih =>
        intro h
        have ho : pollStops o = false := h o (List.mem_cons_self o rest)
        have hr := ih fun x hx => h x (List.mem_cons_of_mem o hx)
        simp [pollRequestCount, ho, hr]
        omega

/-- Claim C3 witness: two non-terminal ticks keep the loop requesting, one
request per tick. -/
theorem claim_C3_witness :
    pollRequestCount [PollOutcome.ok ("pending"), PollOutcome.ok ("processing")] = 2 :=
  claim_C3_poll_stop_condition.2.2.2.2
    [PollOutcome.ok ("pending"), PollOutcome.ok ("processing")] (by decide)

/-- Claim C4: merging a poll response into the jobs list preserves the
list length and the position of every entry; an entry whose job_id
differs from the polled id is returned unchanged at its position, and an
entry with the polled id becomes the object spread of the poll data over
it. -/
theorem claim_C4_merge_frame :
    ∀ (jobs : List Job) (jobId : String) (d : StatusData),
      (mergeJobs jobs jobId d).length = jobs.length ∧
      (∀ (i : Nat) (j : Job), jobs[i]? = some j → j.job_id ≠ jobId →
        (mergeJobs jobs jobId d)[i]? = some j) ∧
      (∀ (i : Nat) (j : Job), jobs[i]? = some j → j.job_id = jobId →
        (mergeJobs jobs jobId d)[i]? = some (spreadMerge j d)) := by
  intro jobs jobId d
  refine ⟨by simp [mergeJobs], ?_, ?_⟩
  · intro i j hij hne
    simp [mergeJobs, List.getElem?_map, hij, hne]
  · intro i j hij heq
    simp [mergeJobs, List.getElem?_map, hij, heq]

/-- Claim C4 witness: in a two-entry list, polling job b leaves the entry
for job a untouched at index 0 and updates the entry for b at index 1. -/
theorem claim_C4_witness :
    (mergeJobs [⟨"a", none, none, none, none⟩, ⟨"b", none, none, none, none⟩]
        ("b") ⟨"b", "completed", 1, none, none⟩)[0]? =
      some ⟨"a", none, none, none, none⟩ ∧
    (mergeJobs [⟨"a", none, none, none, none⟩, ⟨"b", none, none, none, none⟩]
        ("b") ⟨"b", "completed", 1, none, none⟩)[1]? =
      some (spreadMerge ⟨"b", none, none, none, none⟩ ⟨"b", "completed", 1, none, none⟩) :=
  ⟨(claim_C4_merge_frame [⟨"a", none, none, none, none⟩, ⟨"b", none, none, none, none⟩]
      ("b") ⟨"b", "completed", 1, none, none⟩).2.1 0 ⟨"a", none, none, none, none⟩
      rfl (by simp),
   (claim_C4_merge_frame [⟨"a", none, none, none, none⟩, ⟨"b", none, none, none, none⟩]
      ("b") ⟨"b", "completed", 1, none, none⟩).2.2 1 ⟨"b", none, none, none, none⟩
      rfl rfl⟩

/-- Claim C5 counterexample: a response whose job_id field is present but
holds the empty string (a falsy value in JavaScript) takes the else
branch of startProcessing, so no entry is appended to the jobs list and
no polling starts even though the body has a job_id field. -/
theorem claim_C5_counterexample :
    (RespData.mk (some (""))).job_id ≠ none ∧
    (startProcessing ⟨"in", "out", false, "pat", "genius", true, "key"⟩
        ⟨false, [], [], []⟩ (.ok ⟨some ("")⟩)).1.jobs = [] ∧
    (startProcessing ⟨"in", "out", false, "pat", "genius", true, "key"⟩
        ⟨false, [], [], []⟩ (.ok ⟨some ("")⟩)).1.pollingJobs = [] ∧
    (startProcessing ⟨"in", "out", false, "pat", "genius", true, "key"⟩
        ⟨false, [], [], []⟩ (.ok ⟨some ("")⟩)).1.logs.getLast? =
      some ⟨"Failed to create job", "error"⟩ := by
  refine ⟨by decide, by decide, by decide, by decide⟩

/-- Claim C5 (amended): after the response is parsed, if its job_id is
truthy (present and nonempty) then exactly one new entry is appended to
the jobs list, existing entries and their order unchanged, and polling
for that job_id begins; if job_id is absent or falsy then the jobs list
and the polled ids are unchanged and the error log entry Failed to create
job is appended. -/
theorem claim_C5_response_branches :
    ∀ (c : ProcConfig) (st : CtxState) (d : RespData),
      c.inputPath ≠ "" → c.outputPath ≠ "" →
      ((jsTruthyStr d.job_id = true →
        (startProcessing c st (.ok d)).1.jobs = st.jobs ++ [respToJob d] ∧
        (startProcessing c st (.ok d)).1.pollingJobs =
          st.pollingJobs ++ [(d.job_id).getD ("")]) ∧
       (jsTruthyStr d.job_id = false →
        (startProcessing c st (.ok d)).1.jobs = st.jobs ∧
        (startProcessing c st (.ok d)).1.pollingJobs = st.pollingJobs ∧
        (startProcessing c st (.ok d)).1.logs =
          st.logs ++
            [⟨"Processing started: " ++ c.inputPath ++ " -> " ++ c.outputPath, "info"⟩,
             ⟨"Failed to create job", "error"⟩])) := by
  intro c st d h1 h2
  have hc : ¬ (c.inputPath = "" ∨ c.outputPath = "") := by tauto
  constructor
  · intro ht
    refine ⟨?_, ?_⟩ <;> simp [startProcessing, hc, ht]
  · intro hf
    refine ⟨?_, ?_, ?_⟩ <;> simp [startProcessing, hc, hf]

/-- Claim C5 witness: a concrete response with the nonempty job_id j1
appends exactly that entry and starts polling j1. -/
theorem claim_C5_witness :
    (startProcessing ⟨"in", "out", false, "pat", "genius", true, "key"⟩
        ⟨false, [], [], []⟩ (.ok ⟨some ("j1")⟩)).1.jobs =
      [] ++ [respToJob ⟨some ("j1")⟩] ∧
    (startProcessing ⟨"in", "out", false, "pat", "genius", true, "key"⟩
        ⟨false, [], [], []⟩ (.ok ⟨some ("j1")⟩)).1.pollingJobs =
      [] ++ [((some ("j1") : Option String)).getD ("")] :=
  (claim_C5_response_branches ⟨"in", "out", false, "pat", "genius", true, "key"⟩
      ⟨false, [], [], []⟩ ⟨some ("j1")⟩ (by decide) (by decide)).1 (by decide)

/-- Helper for claim C6: the filterMap performed over validations equals
mapping the error-entry constructor over the false entries. -/
theorem validations_filterMap_eq (l : List (String × Bool)) :
    (l.filterMap fun kv =>
        if kv.2 then none
        else some (⟨"Validation failed for " ++ kv.1, "error"⟩ : LogEntry)) =
      (l.filter fun kv => !kv.2).map
        fun kv => (⟨"Validation failed for " ++ kv.1, "error"⟩ : LogEntry) := by
  induction l with
  | nil => rfl
  | cons kv rest ih =>
      cases hkv : kv.2 <;>
        simp [List.filterMap_cons, List.filter_cons, hkv, ih]

/-- Claim C6: validateSetup never lets an exception escape and always
returns a response with a boolean valid field: a throw yields exactly one
error log entry and the value valid false with no validations; a valid
response yields one success entry and returns the data unchanged; an
invalid response returns the data unchanged and appends exactly one error
entry per false entry of validations, in order. -/
theorem claim_C6_validateSetup_total :
    (∀ (logs : List LogEntry) (msg : String),
       validateSetup logs (.thrown msg) =
         (logs ++ [⟨"Error validating setup: " ++ msg, "error"⟩], ⟨false, []⟩)) ∧
    (∀ (logs : List LogEntry) (d : ValidationResp),
       (validateSetup logs (.ok d)).2 = d) ∧
    (∀ (logs : List LogEntry) (d : ValidationResp), d.valid = true →
       (validateSetup logs (.ok d)).1 =
         logs ++ [⟨"Setup validation successful", "success"⟩]) ∧
    (∀ (logs : List LogEntry) (d : ValidationResp), d.valid = false →
       (validateSetup logs (.ok d)).1 =
         logs ++ ((d.validations.filter fun kv => !kv.2).map
           fun kv => (⟨"Validation failed for " ++ kv.1, "error"⟩ : LogEntry))) := by
  refine ⟨fun logs msg => rfl, ?_, ?_, ?_⟩
  · intro logs d
    cases hd : d.valid <;> simp [validateSetup, hd]
  · intro logs d hd
    simp [validateSetup, hd]
  · intro logs d hd
    simp [validateSetup, hd, validations_filterMap_eq]

/-- Claim C6 witness: with chromaprint missing and ffmpeg present, the
invalid response appends exactly the single chromaprint error entry. -/
theorem claim_C6_witness :
    (validateSetup [] (.ok ⟨false, [("chromaprint", false), ("ffmpeg", true)]⟩)).1 =
      [] ++ (([(("chromaprint" : String), false), ("ffmpeg", true)].filter
          fun kv => !kv.2).map
        fun kv => (⟨"Validation failed for " ++ kv.1, "error"⟩ : LogEntry)) :=
  claim_C6_validateSetup_total.2.2.2 []
    ⟨false, [("chromaprint", false), ("ffmpeg", true)]⟩ rfl

/-- Claim C7 counterexample: at progress one two-hundredth the ProgressBar
bar width is the rounded one percent, not the exact half percent, so the
rendered bar width is not always 100 times progress. -/
theorem claim_C7_counterexample :
    (ProgressBar (1 / 200) ("processing")).widthPct ≠ (1 / 200 : ℚ) * 100 := by
  norm_num [ProgressBar, jsRound]

/-- Claim C7 (amended): for progress p between 0 and 1, both ProgressBar
and the JobList progress cell display the integer percentage
Math.round(p times 100), which lies between 0 and 100; the JobList bar
width is the exact p times 100 percent, while the ProgressBar bar width
is the rounded percentage. -/
theorem claim_C7_progress_rendering :
    ∀ (p : ℚ) (status : String), 0 ≤ p → p ≤ 1 →
      (ProgressBar p status).labelPct = jsRound (p * 100) ∧
      (jobListProgressCell p status).labelPct = jsRound (p * 100) ∧
      0 ≤ jsRound (p * 100) ∧ jsRound (p * 100) ≤ 100 ∧
      (jobListProgressCell p status).widthPct = p * 100 ∧
      (ProgressBar p status).widthPct = ((jsRound (p * 100) : ℤ) : ℚ) := by
  intro p status h0 h1
  refine ⟨rfl, rfl, ?_, ?_, rfl, rfl⟩
  · exact Int.le_floor.mpr (by push_cast; linarith)
  · have h : jsRound (p * 100) < 101 := Int.floor_lt.mpr (by push_cast; linarith)
    omega

/-- Claim C7 witness: the amended rendering facts at progress one
quarter. -/
theorem claim_C7_witness :
    (ProgressBar (1 / 4) ("processing")).labelPct = jsRound ((1 / 4 : ℚ) * 100) ∧
    (jobListProgressCell (1 / 4) ("processing")).labelPct = jsRound ((1 / 4 : ℚ) * 100) ∧
    0 ≤ jsRound ((1 / 4 : ℚ) * 100) ∧ jsRound ((1 / 4 : ℚ) * 100) ≤ 100 ∧
    (jobListProgressCell (1 / 4) ("processing")).widthPct = (1 / 4 : ℚ) * 100 ∧
    (ProgressBar (1 / 4) ("processing")).widthPct = ((jsRound ((1 / 4 : ℚ) * 100) : ℤ) : ℚ) :=
  claim_C7_progress_rendering (1 / 4) ("processing") (by norm_num) (by norm_num)

/-- Claim C8: with an empty input or output path, startProcessing and
handleProcess issue no HTTP request, leave the jobs list unchanged,
append exactly the single required-paths error entry, and leave the
processing flag exactly as it was (hence false when it was false). -/
theorem claim_C8_empty_path_guard :
    (∀ (c : ProcConfig) (st : CtxState) (fr : FetchOutcome RespData),
       c.inputPath = "" ∨ c.outputPath = "" →
       (startProcessing c st fr).2 = none ∧
       (startProcessing c st fr).1.jobs = st.jobs ∧
       (startProcessing c st fr).1.processing = st.processing ∧
       (startProcessing c st fr).1.logs = st.logs ++ [requiredPathsLog]) ∧
    (∀ (i o : String) (st : AppState) (fr : FetchOutcome RespData),
       i = "" ∨ o = "" →
       (handleProcess i o st fr).2 = none ∧
       (handleProcess i o st fr).1.isProcessing = st.isProcessing ∧
       (handleProcess i o st fr).1.logs = st.logs ++ [selectDirsLog]) := by
  constructor
  · intro c st fr h
    refine ⟨?_, ?_, ?_, ?_⟩ <;> simp [startProcessing, h]
  · intro i o st fr h
    refine ⟨?_, ?_, ?_⟩ <;> simp [handleProcess, h]

/-- Claim C8 witness: both guards fire on a concrete empty input path with
the processing flag initially false. -/
theorem claim_C8_witness :
    ((startProcessing ⟨"", "out", false, "pat", "genius", true, "key"⟩
        ⟨false, [], [], []⟩ (.ok ⟨some ("j")⟩)).2 = none ∧
     (startProcessing ⟨"", "out", false, "pat", "genius", true, "key"⟩
        ⟨false, [], [], []⟩ (.ok ⟨some ("j")⟩)).1.jobs = [] ∧
     (startProcessing ⟨"", "out", false, "pat", "genius", true, "key"⟩
        ⟨false, [], [], []⟩ (.ok ⟨some ("j")⟩)).1.processing = false ∧
     (startProcessing ⟨"", "out", false, "pat", "genius", true, "key"⟩
        ⟨false, [], [], []⟩ (.ok ⟨some ("j")⟩)).1.logs = [] ++ [requiredPathsLog]) ∧
    ((handleProcess ("") ("out") ⟨false, []⟩ (.ok ⟨some ("j")⟩)).2 = none ∧
     (handleProcess ("") ("out") ⟨false, []⟩ (.ok ⟨some ("j")⟩)).1.isProcessing = false ∧
     (handleProcess ("") ("out") ⟨false, []⟩ (.ok ⟨some ("j")⟩)).1.logs =
       [] ++ [selectDirsLog]) :=
  ⟨claim_C8_empty_path_guard.1 ⟨"", "out", false, "pat", "genius", true, "key"⟩
     ⟨false, [], [], []⟩ (.ok ⟨some ("j")⟩) (Or.inl rfl),
   claim_C8_empty_path_guard.2 ("") ("out") ⟨false, []⟩ (.ok ⟨some ("j")⟩) (Or.inl rfl)⟩

/-- Claim C9 counterexample: the status string constructor lies outside
the four known keys, yet the bracket lookup finds the truthy inherited
Object.prototype constructor, so the or-fallback never fires and the
badge does not receive the pending colour scheme (its colour classes
render as undefined undefined). -/
theorem claim_C9_counterexample :
    ("constructor" : String) ≠ "pending" ∧
    ("constructor" : String) ≠ "processing" ∧
    ("constructor" : String) ≠ "completed" ∧
    ("constructor" : String) ≠ "failed" ∧
    (StatusBadge ("constructor")).colors ≠ pendingColors ∧
    (StatusBadge ("constructor")).colors = ⟨"undefined", "undefined"⟩ := by
  refine ⟨by decide, by decide, by decide, by decide, by decide, by decide⟩

/-- Claim C9 (amended): StatusBadge always renders the status string
itself as the badge text; a status outside the four known keys receives
the pending colour scheme unless it is the name of an Object.prototype
property (constructor, toString, ...), in which case the inherited truthy
value suppresses the pending fallback and the colour classes render as
undefined. -/
theorem claim_C9_statusBadge_total :
    ∀ status : String,
      (StatusBadge status).label = status ∧
      (status ≠ "pending" → status ≠ "processing" → status ≠ "completed" →
       status ≠ "failed" → ¬ (status ∈ protoKeys) →
       (StatusBadge status).colors = pendingColors) ∧
      (status ∈ protoKeys →
       (StatusBadge status).colors = ⟨"undefined", "undefined"⟩) := by
  intro status
  refine ⟨rfl, ?_, ?_⟩
  · intro h1 h2 h3 h4 h5
    simp [StatusBadge, STATUS_COLORS, h1, h2, h3, h4, h5]
  · intro hp
    simp only [protoKeys, List.mem_cons, List.not_mem_nil, or_false] at hp
    rcases hp with rfl | rfl | rfl | rfl | rfl | rfl | rfl | rfl | rfl | rfl | rfl | rfl <;>
      decide

/-- Claim C9 witness: the unknown status bogus renders its own text with
the pending colour scheme, while the prototype name toString gets the
undefined colour classes. -/
theorem claim_C9_witness :
    (StatusBadge ("bogus")).label = "bogus" ∧
    (StatusBadge ("bogus")).colors = pendingColors ∧
    (StatusBadge ("toString")).colors = ⟨"undefined", "undefined"⟩ :=
  ⟨(claim_C9_statusBadge_total ("bogus")).1,
   (claim_C9_statusBadge_total ("bogus")).2.1 (by decide) (by decide) (by decide)
     (by decide) (by decide),
   (claim_C9_statusBadge_total ("toString")).2.2 (by decide)⟩

/-- Helper for claim C10: the three listener counters stay at or below
MAX_LISTENERS along any sequence of registrar calls. -/
theorem listener_counts_bounded (calls : List PreloadCall) (st : ListenerCounts)
    (hl : st.log ≤ MAX_LISTENERS) (he : st.error ≤ MAX_LISTENERS)
    (hx : st.exit ≤ MAX_LISTENERS) :
    (runPreloadCalls st calls).log ≤ MAX_LISTENERS ∧
    (runPreloadCalls st calls).error ≤ MAX_LISTENERS ∧
    (runPreloadCalls st calls).exit ≤ MAX_LISTENERS := by
  induction calls generalizing st with
  | nil => exact ⟨hl, he, hx⟩
  | cons c rest ih =>
      cases c with
      | pythonLog cb =>
          cases cb with
          | notFunc => exact ih st hl he hx
          | func =>
              by_cases h : MAX_LISTENERS ≤ st.log
              · simpa [runPreloadCalls, onPythonLog, h] using ih st hl he hx
              · simpa [runPreloadCalls, onPythonLog, h] using
                  ih { st with log := st.log + 1 } (show st.log + 1 ≤ MAX_LISTENERS by omega) he hx
      | pythonError cb =>
          cases cb with
          | notFunc => exact ih st hl he hx
          | func =>
              by_cases h : MAX_LISTENERS ≤ st.error
              · simpa [runPreloadCalls, onPythonError, h] using ih st hl he hx
              · simpa [runPreloadCalls, onPythonError, h] using
                  ih { st with error := st.error + 1 } hl (show st.error + 1 ≤ MAX_LISTENERS by omega) hx
      | pythonExit cb =>
          cases cb with
          | notFunc => exact ih st hl he hx
          | func =>
              by_cases h : MAX_LISTENERS ≤ st.exit
              · simpa [runPreloadCalls, onPythonExit, h] using ih st hl he hx
              · simpa [runPreloadCalls, onPythonExit, h] using
                  ih { st with exit := st.exit + 1 } hl he (show st.exit + 1 ≤ MAX_LISTENERS by omega)

/-- Claim C10: MAX_LISTENERS is 10; starting from no listeners, any
sequence of registrar calls leaves at most 10 callbacks ever registered on
each of the three channels, and a call whose argument is not a function
changes nothing. -/
theorem claim_C10_listener_bounds :
    MAX_LISTENERS = 10 ∧
    (∀ calls : List PreloadCall,
       (runPreloadCalls ⟨0, 0, 0⟩ calls).log ≤ MAX_LISTENERS ∧
       (runPreloadCalls ⟨0, 0, 0⟩ calls).error ≤ MAX_LISTENERS ∧
       (runPreloadCalls ⟨0, 0, 0⟩ calls).exit ≤ MAX_LISTENERS) ∧
    (∀ st : ListenerCounts,
       onPythonLog st .notFunc = st ∧
       onPythonError st .notFunc = st ∧
       onPythonExit st .notFunc = st) := by
  refine ⟨rfl, ?_, fun st => ⟨rfl, rfl, rfl⟩⟩
  intro calls
  exact listener_counts_bounded calls ⟨0, 0, 0⟩ (by simp) (by simp) (by simp)

end Tinfoil
